import Mathlib

/-!
Verification development for the `cdf_animation` Streamlit script.

The script's core: a seeded synthetic-data generator (`generate_evolving_data`),
the empirical CDF computation (`empirical_cdf`), quartile markers computed by
linear-interpolation percentiles (`np_percentile`), and the start/stop animation
loop (`run_animation`).

Numbers are modelled as exact rationals (ℚ).  numpy's seeded global random
stream (MT19937 plus the floating-point polar gaussian transform) cannot be
reproduced exactly over ℚ; it is modelled as an explicit deterministic integer
state with draws that are exact rationals: `np.random.seed` replaces the global
state with a function of the seed alone, each draw advances the state
deterministically, a standard uniform draw lies in [0, 1), and
`np.random.normal` rejects a negative scale with a ValueError (as numpy's
documented contract requires).  Every property proved below depends only on the
determinism of the stream and the range of the uniform draw, never on the
distributional shape of the variates.
-/

/-- Deterministic successor of the model's global random state (stand-in for
advancing numpy's MT19937 state). -/
def rng_next (s : Nat) : Nat :=
  (6364136223846793005 * s + 1442695040888963407) % (2 ^ 64)

/-- The standard-uniform value read off a state; exact rational in [0, 1). -/
def unit_interval (s : Nat) : ℚ :=
  ((s % 2 ^ 53 : Nat) : ℚ) / 2 ^ 53

/-- Stand-in standard-normal variate read off a state (a deterministic bounded
value; no property below depends on its distribution). -/
def std_normal_val (s : Nat) : ℚ :=
  2 * unit_interval s - 1

/-- The one error kind the script can surface from numpy: a ValueError
(negative scale in `np.random.normal`, or an empty-array reduction). -/
inductive PyError where
  | valueError
  deriving DecidableEq

/-- `np.random.seed(k)`: the global state is replaced by a function of the seed
alone; the prior global state `g` is discarded. -/
def np_seed (seed g : Nat) : Nat :=
  seed

/-- `np.random.uniform(low, high)`: one draw, `low + (high - low) * u`. -/
def np_uniform (low high : ℚ) (s : Nat) : ℚ × Nat :=
  let s1 := rng_next s
  (low + (high - low) * unit_interval s1, s1)

/-- `np.random.normal(loc, scale)` (scalar): raises ValueError when
`scale < 0`, otherwise one draw `loc + scale * z`. -/
def np_normal_scalar (loc scale : ℚ) (s : Nat) : Except PyError (ℚ × Nat) :=
  if scale < 0 then .error .valueError
  else
    let s1 := rng_next s
    .ok (loc + scale * std_normal_val s1, s1)

/-- The list of `size` normal draws `loc + scale * z_k` (no validity check;
used by `np_normal_size` after the scale check). -/
def draw_normals (loc scale : ℚ) : ℕ → Nat → List ℚ × Nat
  | 0, s => ([], s)
  | n + 1, s =>
    let s1 := rng_next s
    let (rest, s2) := draw_normals loc scale n s1
    ((loc + scale * std_normal_val s1) :: rest, s2)

/-- `np.random.normal(loc, scale, size)`: raises ValueError when `scale < 0`,
otherwise an array of `size` draws. -/
def np_normal_size (loc scale : ℚ) (size : ℕ) (s : Nat) :
    Except PyError (List ℚ × Nat) :=
  if scale < 0 then .error .valueError
  else .ok (draw_normals loc scale size s)

/-- `years = list(range(2010, 2016))`. -/
def years : List ℕ :=
  List.range' 2010 6

/-- One iteration of the generator loop body (`for i, year in enumerate(years)`
in `generate_evolving_data`): draw the jittered year mean
`50 + trend_str * i + N(0,2)` and jittered year spread `15 * vol + U(-2,2)`;
for the first year draw the sample directly, afterwards blend
`0.7 * prev + 0.3 * year_mean + noise` elementwise with fresh noise of scale
`year_std`. -/
def genStep (t v : ℚ) (n : ℕ) (i : ℕ) (prev : Option (List ℚ)) (s : Nat) :
    Except PyError (List ℚ × Nat) :=
  match np_normal_scalar 0 2 s with
  | .error e => .error e
  | .ok (j1, s1) =>
    let year_mean := 50 + t * (i : ℚ) + j1
    let u := np_uniform (-2) 2 s1
    let year_std := 15 * v + u.1
    match prev with
    | none => np_normal_size year_mean year_std n u.2
    | some pv =>
      match np_normal_size 0 year_std n u.2 with
      | .error e => .error e
      | .ok (noise, s3) =>
        .ok (List.zipWith (fun p z => 7 / 10 * p + 3 / 10 * year_mean + z) pv noise, s3)

/-- The generator loop: `fuel` remaining years starting at index `i`, threading
the previous year's sample and the random state. -/
def genAux (t v : ℚ) (n : ℕ) : ℕ → ℕ → Option (List ℚ) → Nat → Except PyError (List (List ℚ))
  | _, 0, _, _ => .ok []
  | i, fuel + 1, prev, s =>
    match genStep t v n i prev s with
    | .error e => .error e
    | .ok (vals, s2) =>
      match genAux t v n (i + 1) fuel (some vals) s2 with
      | .error e => .error e
      | .ok rest => .ok (vals :: rest)

/-- `generate_evolving_data(n_obs, trend_str, vol)` run with ambient global
random state `g`: seeds the stream with 42 (discarding `g`), then produces the
six per-year sample arrays, returned together with the year list (the dict in
the source keeps insertion order, which is year order). -/
def generate_evolving_data (n_obs : ℕ) (trend_str vol : ℚ) (g : Nat) :
    Except PyError (List (List ℚ) × List ℕ) :=
  let s := np_seed 42 g
  match genAux trend_str vol n_obs 0 6 none s with
  | .error e => .error e
  | .ok arrays => .ok (arrays, years)

/-- The per-year arrays of a successful generator run (convenience accessor
used to state concrete instances). -/
def gen_arrays (n_obs : ℕ) (trend_str vol : ℚ) (g : Nat) : List (List ℚ) :=
  match generate_evolving_data n_obs trend_str vol g with
  | .ok p => p.1
  | .error _ => []

/-- `empirical_cdf(data)`: `(np.sort(data), np.arange(1, n + 1) / n)`.  On the
empty input both components are empty (numpy raises nothing there: sorting an
empty array and dividing an empty array are both no-ops). -/
def empirical_cdf (data : List ℚ) : List ℚ × List ℚ :=
  let sorted_data := data.insertionSort (· ≤ ·)
  let n := data.length
  (sorted_data, (List.range n).map (fun k : ℕ => ((k : ℚ) + 1) / (n : ℚ)))

/-- `np.min` over a non-empty list (the script only applies it to non-empty
data; on `[]` numpy would raise, here a junk value 0 is returned and every
statement below carries a non-emptiness hypothesis). -/
def np_min (l : List ℚ) : ℚ :=
  match l with
  | [] => 0
  | x :: xs => xs.foldl min x

/-- `np.max` over a non-empty list (same convention as `np_min`). -/
def np_max (l : List ℚ) : ℚ :=
  match l with
  | [] => 0
  | x :: xs => xs.foldl max x

/-- `np.percentile(data, q)` with the default linear interpolation: with the
sorted sample `s` of length `n`, the fractional rank is `h = q/100 * (n - 1)`
and the value interpolates between the entries at `⌊h⌋` and the next index
(clamped to `n - 1`).  The script only calls it on non-empty data. -/
def np_percentile (data : List ℚ) (q : ℚ) : ℚ :=
  let s := data.insertionSort (· ≤ ·)
  let n := s.length
  let h := q / 100 * ((n : ℚ) - 1)
  let lo := (⌊h⌋).toNat
  let j := min (lo + 1) (n - 1)
  let a := s.getD lo 0
  let b := s.getD j 0
  a + (h - (lo : ℚ)) * (b - a)

/-- The quartile marker y-coordinates: the literal list `[0.25, 0.50, 0.75]`
from the source. -/
def quartile_probs : List ℚ :=
  [25 / 100, 50 / 100, 75 / 100]

/-- The quartile marker x-coordinates:
`np.percentile(current_data, [25, 50, 75])`. -/
def quartile_values (data : List ℚ) : List ℚ :=
  [np_percentile data 25, np_percentile data 50, np_percentile data 75]

/-- One emitted animation frame: everything the loop body pushes to the
rendering layer for one year. -/
structure Frame where
  year : ℕ
  progress : ℚ
  x_cdf : List ℚ
  y_cdf : List ℚ
  q_values : List ℚ
  q_probs : List ℚ
  x_lo : ℚ
  x_hi : ℚ
  deriving DecidableEq

/-- Outcome of one animation run: the frames emitted in order, whether the
loop exited through the stop-flag `break`, and whether the terminal
"Animation completed!" message was displayed (the source displays it after the
loop on every path, broken or not). -/
structure AnimationResult where
  frames : List Frame
  brokeEarly : Bool
  successMessage : Bool
  deriving DecidableEq

/-- `np.concatenate([data_dict[year] for year in years])`. -/
def all_values_of (dataDict : ℕ → List ℚ) : List ℚ :=
  years.foldr (fun y acc => dataDict y ++ acc) []

/-- The inner frame construction of one loop iteration: progress `(i+1)/len`,
the year's CDF, the quartile markers, and the shared x-range. -/
def make_frame (dataDict : ℕ → List ℚ) (nYears : ℕ) (xlo xhi : ℚ) (i year : ℕ) : Frame :=
  let current := dataDict year
  let c := empirical_cdf current
  { year := year
    progress := ((i : ℚ) + 1) / (nYears : ℚ)
    x_cdf := c.1
    y_cdf := c.2
    q_values := quartile_values current
    q_probs := quartile_probs
    x_lo := xlo
    x_hi := xhi }

/-- The `for i, year in enumerate(years)` loop of the animation block: the
stop flag (a constant for the whole run, read once from the button) is checked
at the top of each iteration and `break` ends the loop. -/
def anim_loop (dataDict : ℕ → List ℚ) (stop : Bool) (nYears : ℕ) (xlo xhi : ℚ) :
    List (ℕ × ℕ) → List Frame × Bool
  | [] => ([], false)
  | (i, year) :: rest =>
    if stop then ([], true)
    else
      let f := make_frame dataDict nYears xlo xhi i year
      let (fs, b) := anim_loop dataDict stop nYears xlo xhi rest
      (f :: fs, b)

/-- The animation block guarded by `if start_animation`: first the shared
x-range is computed from the concatenation of all years' data (`np.min` on an
empty concatenation raises a ValueError before any frame), then the frame loop
runs, and the completion message is displayed unconditionally afterwards. -/
def run_animation (dataDict : ℕ → List ℚ) (stop : Bool) : Except PyError AnimationResult :=
  match all_values_of dataDict with
  | [] => .error .valueError
  | x :: xs =>
    let xlo := np_min (x :: xs) - 5
    let xhi := np_max (x :: xs) + 5
    let fb := anim_loop dataDict stop years.length xlo xhi years.enum
    .ok { frames := fb.1, brokeEarly := fb.2, successMessage := true }

/-! ## Theorems -/

/-- C1: `generate_evolving_data` re-seeds the global stream with the constant
42 before any draw, so for every valid configuration two invocations with
identical inputs — whatever the ambient global random state of each — return
the identical SampleSet, element for element. -/
theorem c1_generate_deterministic (n : ℕ) (t v : ℚ) (g1 g2 : Nat)
    (h1 : 1 ≤ n) (h2 : 0 < v) :
    generate_evolving_data n t v g1 = generate_evolving_data n t v g2 := rfl

/-- Witness for C1 at a concrete valid configuration and two distinct ambient
states. -/
theorem c1_generate_deterministic_witness :
    1 ≤ 1 ∧ (0 : ℚ) < 1 ∧
      generate_evolving_data 1 0 1 0 = generate_evolving_data 1 0 1 5 :=
  ⟨Nat.le_refl 1, by norm_num, c1_generate_deterministic 1 0 1 0 5 (Nat.le_refl 1) (by norm_num)⟩

/-- C5 counterexample: on the empty sample the CDF computation does not fail —
`np.sort` of an empty array and the elementwise division of the empty
`np.arange(1, 1)` are both empty no-ops — so it returns a value, namely the
pair of empty sequences. -/
theorem c5_counterexample :
    (empirical_cdf []).1 = [] ∧ (empirical_cdf []).2 = [] :=
  ⟨rfl, rfl⟩

/-- C5 amended: `empirical_cdf` applied to the empty sample raises nothing and
returns the pair of empty sequences. -/
theorem c5_amended : empirical_cdf [] = ([], []) := rfl

/-- C10: the CDF computation is permutation-invariant — permuting the sample
changes neither the sorted-value sequence nor the cumulative-probability
sequence. -/
theorem c10_perm_invariant (l1 l2 : List ℚ) (h : l1.Perm l2) :
    empirical_cdf l1 = empirical_cdf l2 := by
  simp only [empirical_cdf]
  have hsort : l1.insertionSort (· ≤ ·) = l2.insertionSort (· ≤ ·) :=
    List.eq_of_perm_of_sorted
      ((List.perm_insertionSort _ l1).trans (h.trans (List.perm_insertionSort _ l2).symm))
      (List.sorted_insertionSort _ l1) (List.sorted_insertionSort _ l2)
  rw [hsort, h.length_eq]

/-- Witness for C10 on the concrete permutation `[1, 2] ~ [2, 1]`. -/
theorem c10_perm_invariant_witness :
    ([1, 2] : List ℚ).Perm [2, 1] ∧ empirical_cdf [1, 2] = empirical_cdf [2, 1] :=
  ⟨List.Perm.swap 2 1 [], c10_perm_invariant [1, 2] [2, 1] (List.Perm.swap 2 1 [])⟩

/-- C3: for a non-empty sample of length `n` the cumulative-probability
sequence `np.arange(1, n + 1) / n` is non-decreasing, starts at `1 / n` and
ends at exactly `1`. -/
theorem c3_cdf_monotone_first_last (data : List ℚ) (h : data ≠ []) :
    (empirical_cdf data).2.Pairwise (· ≤ ·) ∧
    (empirical_cdf data).2.head? = some (1 / (data.length : ℚ)) ∧
    (empirical_cdf data).2.getLast? = some 1 := by
  obtain ⟨m, hm⟩ : ∃ m, data.length = m + 1 :=
    ⟨data.length - 1, (Nat.succ_pred_eq_of_pos (List.length_pos.mpr h)).symm⟩
  simp only [empirical_cdf]
  have hn : (0 : ℚ) < (data.length : ℚ) := by rw [hm]; positivity
  refine ⟨?_, ?_, ?_⟩
  · refine List.pairwise_map.mpr ((List.pairwise_lt_range _).imp ?_)
    intro a b hab
    exact (div_le_div_iff_of_pos_right hn).mpr (by exact_mod_cast Nat.succ_le_succ hab.le)
  · rw [hm, List.range_succ_eq_map, List.map_cons, List.head?_cons]
    norm_num
  · rw [hm, List.range_succ, List.map_append, List.map_cons, List.map_nil,
      List.getLast?_concat]
    push_cast
    rw [div_self (by positivity : ((m : ℚ) + 1) ≠ 0)]

/-- Witness for C3 on the concrete sample `[2, 1, 3]`. -/
theorem c3_cdf_monotone_first_last_witness :
    ([2, 1, 3] : List ℚ) ≠ [] ∧
      ((empirical_cdf [2, 1, 3]).2.Pairwise (· ≤ ·) ∧
        (empirical_cdf [2, 1, 3]).2.head? = some (1 / (([2, 1, 3] : List ℚ).length : ℚ)) ∧
        (empirical_cdf [2, 1, 3]).2.getLast? = some 1) :=
  ⟨by decide, c3_cdf_monotone_first_last [2, 1, 3] (by decide)⟩

/-- C4 counterexample: the source performs no configuration validation at all —
with `sampleCount = 0` (volatility 1) generation raises nothing and returns
six empty per-year arrays, so no ConfigurationError precedes data production. -/
theorem c4_counterexample :
    generate_evolving_data 0 (1 / 2) 1 0 =
      .ok ([[], [], [], [], [], []], [2010, 2011, 2012, 2013, 2014, 2015]) := by
  norm_num [generate_evolving_data, genAux, genStep, np_normal_scalar, np_uniform,
    np_normal_size, draw_normals, rng_next, unit_interval, std_normal_val, np_seed,
    years, List.range']

/-- C4 amended: generation rejects nothing: with `sampleCount = 0` it succeeds
for every ambient random state, producing six empty per-period arrays (the UI
sliders, not the generator, keep `sampleCount ≥ 100` and `volatility ≥ 0.1`;
`volatility = 0` likewise triggers no upfront check and could only surface as a
ValueError from a normal draw whose jittered spread happens to be negative). -/
theorem generate_ambient_state_irrelevant (n : ℕ) (t v : ℚ) (g1 g2 : Nat) :
    generate_evolving_data n t v g1 = generate_evolving_data n t v g2 := rfl

theorem c4_amended (g : Nat) :
    generate_evolving_data 0 (1 / 2) 1 g =
      .ok ([[], [], [], [], [], []], [2010, 2011, 2012, 2013, 2014, 2015]) := by
  rw [generate_ambient_state_irrelevant 0 (1 / 2) 1 g 0]
  norm_num [generate_evolving_data, genAux, genStep, np_normal_scalar, np_uniform,
    np_normal_size, draw_normals, rng_next, unit_interval, std_normal_val, np_seed,
    years, List.range']

/-- C9 counterexample: `volatility > 0` alone does not keep the spread of every
normal draw non-negative: at `sampleCount = 1`, `volatility = 1/100` the drawn
spread `15 * (1/100) + U(-2, 2)` of a later period is negative and generation
fails with the ill-defined-draw ValueError instead of succeeding. -/
theorem c9_counterexample :
    generate_evolving_data 1 (1 / 2) (1 / 100) 0 = .error .valueError := by
  norm_num [generate_evolving_data, genAux, genStep, np_normal_scalar, np_uniform,
    np_normal_size, draw_normals, rng_next, unit_interval, std_normal_val, np_seed,
    years, List.range']

theorem unit_interval_nonneg (s : Nat) : 0 ≤ unit_interval s := by
  unfold unit_interval; positivity

theorem unit_interval_lt_one (s : Nat) : unit_interval s < 1 := by
  unfold unit_interval
  rw [div_lt_one (by positivity)]
  exact_mod_cast Nat.mod_lt s (by norm_num)

theorem np_uniform_fst_ge (s : Nat) : -2 ≤ (np_uniform (-2) 2 s).1 := by
  unfold np_uniform
  have h := unit_interval_nonneg (rng_next s)
  dsimp only
  nlinarith [h]

theorem np_normal_scalar_eval (loc scale : ℚ) (s : Nat) (h : 0 ≤ scale) :
    np_normal_scalar loc scale s =
      .ok (loc + scale * std_normal_val (rng_next s), rng_next s) := by
  unfold np_normal_scalar
  rw [if_neg (not_lt.mpr h)]

theorem np_normal_size_eval (loc scale : ℚ) (size : ℕ) (s : Nat) (h : 0 ≤ scale) :
    np_normal_size loc scale size s = .ok (draw_normals loc scale size s) := by
  unfold np_normal_size
  rw [if_neg (not_lt.mpr h)]

theorem genStep_isOk (t v : ℚ) (n i : ℕ) (prev : Option (List ℚ)) (s : Nat)
    (hv : 2 ≤ 15 * v) :
    ∃ out, genStep t v n i prev s = .ok out := by
  have hstd : 0 ≤ 15 * v + (np_uniform (-2) 2 (rng_next s)).1 := by
    have := np_uniform_fst_ge (rng_next s)
    linarith
  unfold genStep
  rw [np_normal_scalar_eval 0 2 s (by norm_num)]
  cases prev with
  | none =>
    dsimp only
    rw [np_normal_size_eval _ _ n _ hstd]
    exact ⟨_, rfl⟩
  | some pv =>
    dsimp only
    rw [np_normal_size_eval 0 _ n _ hstd]
    exact ⟨_, rfl⟩

theorem genAux_isOk (t v : ℚ) (n : ℕ) (hv : 2 ≤ 15 * v) :
    ∀ (fuel i : ℕ) (prev : Option (List ℚ)) (s : Nat),
      ∃ l, genAux t v n i fuel prev s = .ok l := by
  intro fuel
  induction fuel with
  | zero => exact fun i prev s => ⟨[], rfl⟩
  | succ k ih =>
    intro i prev s
    obtain ⟨⟨vals, s2⟩, hstep⟩ := genStep_isOk t v n i prev s hv
    obtain ⟨l, hl⟩ := ih (i + 1) (some vals) s2
    refine ⟨vals :: l, ?_⟩
    unfold genAux
    rw [hstep]
    dsimp only
    rw [hl]

/-- C9 amended: under the stated precondition alone (`volatility > 0`) the
spread of a later normal draw can be negative and generation can fail (see the
counterexample); what holds is: whenever `volatility ≥ 2/15`, every jittered
spread `15 * volatility + U(-2, 2)` is non-negative, the ill-defined-draw error
branch is unreachable, and generation succeeds for all six periods. -/
theorem c9_amended (n : ℕ) (t v : ℚ) (g : Nat) (hv : 2 / 15 ≤ v) :
    ∃ out, generate_evolving_data n t v g = .ok out := by
  have hv2 : 2 ≤ 15 * v := by linarith
  obtain ⟨l, hl⟩ := genAux_isOk t v n hv2 6 0 none (np_seed 42 g)
  refine ⟨(l, years), ?_⟩
  unfold generate_evolving_data
  dsimp only
  rw [hl]

/-- Witness for the amended C9 at a concrete configuration. -/
theorem c9_amended_witness :
    2 / 15 ≤ (1 : ℚ) ∧ ∃ out, generate_evolving_data 2 0 1 7 = .ok out :=
  ⟨by norm_num, c9_amended 2 0 1 7 (by norm_num)⟩

theorem foldl_min_le_init (xs : List ℚ) : ∀ a : ℚ, xs.foldl min a ≤ a := by
  induction xs with
  | nil => intro a; simp
  | cons x xs ih =>
    intro a
    calc xs.foldl min (min a x) ≤ min a x := ih (min a x)
    _ ≤ a := min_le_left a x

theorem foldl_min_le_mem (xs : List ℚ) : ∀ (a y : ℚ), y ∈ xs → xs.foldl min a ≤ y := by
  induction xs with
  | nil => intro a y hy; exact absurd hy (List.not_mem_nil y)
  | cons x xs ih =>
    intro a y hy
    rcases List.mem_cons.mp hy with rfl | hy
    · calc xs.foldl min (min a y) ≤ min a y := foldl_min_le_init xs (min a y)
      _ ≤ y := min_le_right a y
    · exact ih (min a x) y hy

theorem init_le_foldl_max (xs : List ℚ) : ∀ a : ℚ, a ≤ xs.foldl max a := by
  induction xs with
  | nil => intro a; simp
  | cons x xs ih =>
    intro a
    calc a ≤ max a x := le_max_left a x
    _ ≤ xs.foldl max (max a x) := ih (max a x)

theorem mem_le_foldl_max (xs : List ℚ) : ∀ (a y : ℚ), y ∈ xs → y ≤ xs.foldl max a := by
  induction xs with
  | nil => intro a y hy; exact absurd hy (List.not_mem_nil y)
  | cons x xs ih =>
    intro a y hy
    rcases List.mem_cons.mp hy with rfl | hy
    · calc y ≤ max a y := le_max_right a y
      _ ≤ xs.foldl max (max a y) := init_le_foldl_max xs (max a y)
    · exact ih (max a x) y hy

theorem np_min_le_of_mem (l : List ℚ) (y : ℚ) (hy : y ∈ l) : np_min l ≤ y := by
  cases l with
  | nil => exact absurd hy (List.not_mem_nil y)
  | cons x xs =>
    unfold np_min
    rcases List.mem_cons.mp hy with rfl | hy
    · exact foldl_min_le_init xs y
    · exact foldl_min_le_mem xs x y hy

theorem le_np_max_of_mem (l : List ℚ) (y : ℚ) (hy : y ∈ l) : y ≤ np_max l := by
  cases l with
  | nil => exact absurd hy (List.not_mem_nil y)
  | cons x xs =>
    unfold np_max
    rcases List.mem_cons.mp hy with rfl | hy
    · exact init_le_foldl_max xs y
    · exact mem_le_foldl_max xs x y hy

theorem np_percentile_bounds (data : List ℚ) (hne : data ≠ []) (q : ℚ)
    (h0 : 0 ≤ q) (h1 : q ≤ 100) :
    np_min data ≤ np_percentile data q ∧ np_percentile data q ≤ np_max data := by
  have hsorted : (data.insertionSort (· ≤ ·)).Sorted (· ≤ ·) :=
    List.sorted_insertionSort _ data
  have hperm : (data.insertionSort (· ≤ ·)).Perm data := List.perm_insertionSort _ data
  set s := data.insertionSort (· ≤ ·) with hs
  set n := s.length with hn
  have hpos : 0 < n := by
    rw [hn, hperm.length_eq]
    exact List.length_pos.mpr hne
  have hn1 : (1 : ℚ) ≤ (n : ℚ) := by exact_mod_cast hpos
  set hq := q / 100 * ((n : ℚ) - 1) with hh
  have hq0 : 0 ≤ hq := mul_nonneg (by positivity) (by linarith)
  have hqle : hq ≤ (n : ℚ) - 1 := by
    have h100 : q / 100 ≤ 1 := (div_le_one (by norm_num)).mpr h1
    nlinarith
  have hfl0 : 0 ≤ ⌊hq⌋ := Int.floor_nonneg.mpr hq0
  set lo := (⌊hq⌋).toNat with hlo
  have hlocast : (lo : ℚ) = (⌊hq⌋ : ℚ) := by
    rw [hlo]; exact_mod_cast Int.toNat_of_nonneg hfl0
  have hfloor_le : ⌊hq⌋ ≤ (n : ℤ) - 1 := by
    have h2 : ⌊hq⌋ ≤ ⌊(n : ℚ) - 1⌋ := Int.floor_le_floor hqle
    have h3 : ⌊(n : ℚ) - 1⌋ = (n : ℤ) - 1 := by
      rw [show (n : ℚ) - 1 = (((n : ℤ) - 1 : ℤ) : ℚ) by push_cast; ring]
      exact Int.floor_intCast _
    omega
  have hlo_le : lo ≤ n - 1 := by omega
  have hlo_lt : lo < n := by omega
  set j := min (lo + 1) (n - 1) with hj
  have hj_lt : j < n := by omega
  have hlo_le_j : lo ≤ j := by omega
  have hgetD_a : s.getD lo 0 = s.get ⟨lo, hlo_lt⟩ := by
    rw [List.getD_eq_getElem?_getD, List.getElem?_eq_getElem hlo_lt]
    rfl
  have hgetD_b : s.getD j 0 = s.get ⟨j, hj_lt⟩ := by
    rw [List.getD_eq_getElem?_getD, List.getElem?_eq_getElem hj_lt]
    rfl
  have hab : s.get ⟨lo, hlo_lt⟩ ≤ s.get ⟨j, hj_lt⟩ :=
    hsorted.rel_get_of_le (Fin.mk_le_mk.mpr hlo_le_j)
  have hfrac0 : 0 ≤ hq - (lo : ℚ) := by
    rw [hlocast]
    linarith [Int.floor_le hq]
  have hfrac1 : hq - (lo : ℚ) ≤ 1 := by
    rw [hlocast]
    linarith [Int.lt_floor_add_one hq]
  have hmin_a : np_min data ≤ s.get ⟨lo, hlo_lt⟩ :=
    np_min_le_of_mem data _ (hperm.subset (List.get_mem s lo hlo_lt))
  have hmax_b : s.get ⟨j, hj_lt⟩ ≤ np_max data :=
    le_np_max_of_mem data _ (hperm.subset (List.get_mem s j hj_lt))
  have hval : np_percentile data q =
      s.getD lo 0 + (hq - (lo : ℚ)) * (s.getD j 0 - s.getD lo 0) := rfl
  rw [hval, hgetD_a, hgetD_b]
  constructor
  · nlinarith [hfrac0, hab, hmin_a]
  · nlinarith [hfrac1, hfrac0, hab, hmax_b]

/-- C8: for every non-empty sample the three quartile marker probabilities are
exactly 0.25, 0.50, 0.75 (independent of the sample), and each of the three
linear-interpolation percentile values lies within `[min sample, max sample]`. -/
theorem c8_quartiles (data : List ℚ) (h : data ≠ []) :
    quartile_probs = [1 / 4, 1 / 2, 3 / 4] ∧
      ∀ x ∈ quartile_values data, np_min data ≤ x ∧ x ≤ np_max data := by
  refine ⟨by norm_num [quartile_probs], ?_⟩
  intro x hx
  simp only [quartile_values, List.mem_cons, List.not_mem_nil, or_false] at hx
  rcases hx with rfl | rfl | rfl
  · exact np_percentile_bounds data h 25 (by norm_num) (by norm_num)
  · exact np_percentile_bounds data h 50 (by norm_num) (by norm_num)
  · exact np_percentile_bounds data h 75 (by norm_num) (by norm_num)

/-- Witness for C8 on the concrete sample `[3, 1, 2]`. -/
theorem c8_quartiles_witness :
    ([3, 1, 2] : List ℚ) ≠ [] ∧
      (quartile_probs = [1 / 4, 1 / 2, 3 / 4] ∧
        ∀ x ∈ quartile_values [3, 1, 2], np_min [3, 1, 2] ≤ x ∧ x ≤ np_max [3, 1, 2]) :=
  ⟨by simp, c8_quartiles [3, 1, 2] (by simp)⟩

theorem years_eq : years = [2010, 2011, 2012, 2013, 2014, 2015] := rfl

theorem years_enum_eq :
    years.enum = [(0, 2010), (1, 2011), (2, 2012), (3, 2013), (4, 2014), (5, 2015)] := rfl

/-- C7: on the six-period sequence with no stop signal, the animation loop
emits exactly 6 frames whose years are `[2010, …, 2015]` in ascending order,
whose reported progress fractions are `1/6, 2/6, …, 1`, does not break early,
and ends by displaying the completion message. -/
theorem c7_frames_progress_completed (d : ℕ → List ℚ) (h : all_values_of d ≠ []) :
    (run_animation d false).map
        (fun r => (r.frames.map Frame.year, r.frames.map Frame.progress,
          r.brokeEarly, r.successMessage)) =
      .ok ([2010, 2011, 2012, 2013, 2014, 2015],
        [1 / 6, 2 / 6, 3 / 6, 4 / 6, 5 / 6, 1], false, true) := by
  unfold run_animation
  cases hav : all_values_of d with
  | nil => exact absurd hav h
  | cons x xs =>
    dsimp only
    rw [years_enum_eq, years_eq]
    simp only [anim_loop, make_frame, if_neg (by simp : ¬(false = true)), Except.map,
      List.map_cons, List.map_nil, List.length_cons, List.length_nil]
    norm_num

/-- Witness for C7 with the constant data dictionary `fun _ => [1]`. -/
theorem c7_frames_progress_completed_witness :
    all_values_of (fun _ => ([1] : List ℚ)) ≠ [] ∧
      (run_animation (fun _ => ([1] : List ℚ)) false).map
          (fun r => (r.frames.map Frame.year, r.frames.map Frame.progress,
            r.brokeEarly, r.successMessage)) =
        .ok ([2010, 2011, 2012, 2013, 2014, 2015],
          [1 / 6, 2 / 6, 3 / 6, 4 / 6, 5 / 6, 1], false, true) :=
  ⟨by simp [all_values_of, years_eq],
    c7_frames_progress_completed (fun _ => [1]) (by simp [all_values_of, years_eq])⟩

/-- C6 counterexample: a stop signal observed by the loop can only be the
run-constant stop flag; at the concrete data dictionary `fun _ => [1]` the run
that observes the stop emits 0 frames and the run that never observes it emits
all 6 — never exactly 3 — so no run ends having emitted exactly 3 of 6 frames. -/
theorem c6_counterexample :
    ((run_animation (fun _ => ([1] : List ℚ)) true).map fun r => r.frames.length) = .ok 0 ∧
    ((run_animation (fun _ => ([1] : List ℚ)) false).map fun r => r.frames.length) = .ok 6 := by
  constructor <;>
    simp [run_animation, all_values_of, years_eq, years_enum_eq, anim_loop, make_frame,
      Except.map]

/-- C6 amended: within one run the stop flag is a constant read once from the
button, checked before each frame: when it is observed the loop breaks before
emitting any frame — exactly 0 frames are emitted (in particular never a 4th) —
and the source still displays the completion message afterwards, so there is no
distinct Cancelled state; stopping after 3 emitted frames is impossible within
a single run and mid-run stopping happens only through the framework rerunning
the script. -/
theorem c6_amended (d : ℕ → List ℚ) (h : all_values_of d ≠ []) :
    (run_animation d true).map
        (fun r => (r.frames.length, r.brokeEarly, r.successMessage)) =
      .ok (0, true, true) := by
  unfold run_animation
  cases hav : all_values_of d with
  | nil => exact absurd hav h
  | cons x xs =>
    dsimp only
    rw [years_enum_eq]
    simp [anim_loop, Except.map]

/-- Witness for the amended C6 with the constant data dictionary
`fun _ => [1]`. -/
theorem c6_amended_witness :
    all_values_of (fun _ => ([1] : List ℚ)) ≠ [] ∧
      (run_animation (fun _ => ([1] : List ℚ)) true).map
          (fun r => (r.frames.length, r.brokeEarly, r.successMessage)) =
        .ok (0, true, true) :=
  ⟨by simp [all_values_of, years_eq],
    c6_amended (fun _ => [1]) (by simp [all_values_of, years_eq])⟩

theorem genAux_head (t v : ℚ) (n : ℕ) (fuel i : ℕ) (prev : Option (List ℚ)) (s : Nat)
    (l : List (List ℚ)) (hl : genAux t v n i fuel prev s = .ok l) (hne : l ≠ []) :
    ∃ s2, genStep t v n i prev s = .ok (l.getD 0 [], s2) := by
  cases fuel with
  | zero =>
    unfold genAux at hl
    injection hl with hl
    exact absurd hl.symm hne
  | succ k =>
    unfold genAux at hl
    cases hstep : genStep t v n i prev s with
    | error e => rw [hstep] at hl; cases hl
    | ok p =>
      obtain ⟨vals, s2⟩ := p
      rw [hstep] at hl
      dsimp only at hl
      cases hrest : genAux t v n (i + 1) k (some vals) s2 with
      | error e => rw [hrest] at hl; cases hl
      | ok rest =>
        rw [hrest] at hl
        dsimp only at hl
        injection hl with hl
        subst hl
        exact ⟨s2, rfl⟩

theorem genAux_consec (t v : ℚ) (n : ℕ) :
    ∀ (fuel i : ℕ) (prev : Option (List ℚ)) (s : Nat) (l : List (List ℚ)),
      genAux t v n i fuel prev s = .ok l →
      ∀ k, k + 1 < l.length →
        ∃ s1 s2, genStep t v n (i + (k + 1)) (some (l.getD k [])) s1 =
          .ok (l.getD (k + 1) [], s2) := by
  intro fuel
  induction fuel with
  | zero =>
    intro i prev s l hl k hk
    unfold genAux at hl
    injection hl with hl
    subst hl
    simp at hk
  | succ m ih =>
    intro i prev s l hl k hk
    unfold genAux at hl
    cases hstep : genStep t v n i prev s with
    | error e => rw [hstep] at hl; cases hl
    | ok p =>
      obtain ⟨vals, s2⟩ := p
      rw [hstep] at hl
      dsimp only at hl
      cases hrest : genAux t v n (i + 1) m (some vals) s2 with
      | error e => rw [hrest] at hl; cases hl
      | ok rest =>
        rw [hrest] at hl
        dsimp only at hl
        injection hl with hl
        subst hl
        cases k with
        | zero =>
          have hne : rest ≠ [] := by
            intro hemp
            rw [hemp] at hk
            simp at hk
          obtain ⟨s3, hhead⟩ := genAux_head t v n m (i + 1) (some vals) s2 rest hrest hne
          exact ⟨s2, s3, by simpa using hhead⟩
        | succ k2 =>
          have hk2 : k2 + 1 < rest.length := by simpa using hk
          obtain ⟨s1, s4, hcons⟩ := ih (i + 1) (some vals) s2 rest hrest k2 hk2
          refine ⟨s1, s4, ?_⟩
          have harith : i + (k2 + 1 + 1) = i + 1 + (k2 + 1) := by omega
          rw [harith]
          simpa using hcons

theorem genStep_blend (t v : ℚ) (n i : ℕ) (pv : List ℚ) (s : Nat) (vals : List ℚ)
    (sout : Nat) (h : genStep t v n i (some pv) s = .ok (vals, sout)) :
    ∃ j1 s1 j2 s2 noise,
      np_normal_scalar 0 2 s = .ok (j1, s1) ∧
      np_uniform (-2) 2 s1 = (j2, s2) ∧
      np_normal_size 0 (15 * v + j2) n s2 = .ok (noise, sout) ∧
      vals = List.zipWith (fun p z => 7 / 10 * p + 3 / 10 * (50 + t * (i : ℚ) + j1) + z)
        pv noise := by
  unfold genStep at h
  cases hsc : np_normal_scalar 0 2 s with
  | error e => rw [hsc] at h; cases h
  | ok p =>
    obtain ⟨j1, s1⟩ := p
    rw [hsc] at h
    dsimp only at h
    cases hns : np_normal_size 0 (15 * v + (np_uniform (-2) 2 s1).1) n
        (np_uniform (-2) 2 s1).2 with
    | error e => rw [hns] at h; cases h
    | ok q =>
      obtain ⟨noise, s3⟩ := q
      rw [hns] at h
      dsimp only at h
      injection h with h
      injection h with h1 h2
      subst h2
      exact ⟨j1, s1, (np_uniform (-2) 2 s1).1, (np_uniform (-2) 2 s1).2, noise,
        rfl, rfl, hns, h1.symm⟩

/-- C2: in every successful generator run, each period `i ≥ 1` satisfies the
blend equation of the source: the period's sample equals, elementwise at the
same positional index, `0.7` times the preceding period's sample plus `0.3`
times the new target mean `50 + trend * i + jitter`, plus a fresh noise array
drawn with location 0 and scale the new jittered spread `15 * vol + U(-2,2)`;
the `0.7` and `0.3` weights are the fixed constants of the source. -/
theorem c2_blend_formula (n : ℕ) (t v : ℚ) (g : Nat) (arrays : List (List ℚ))
    (ys : List ℕ) (hgen : generate_evolving_data n t v g = .ok (arrays, ys))
    (i : ℕ) (h1 : 1 ≤ i) (h2 : i < arrays.length) :
    ∃ s j1 s1 j2 s2 noise s3,
      np_normal_scalar 0 2 s = .ok (j1, s1) ∧
      np_uniform (-2) 2 s1 = (j2, s2) ∧
      np_normal_size 0 (15 * v + j2) n s2 = .ok (noise, s3) ∧
      arrays.getD i [] =
        List.zipWith (fun p z => 7 / 10 * p + 3 / 10 * (50 + t * (i : ℚ) + j1) + z)
          (arrays.getD (i - 1) []) noise := by
  unfold generate_evolving_data at hgen
  dsimp only at hgen
  cases haux : genAux t v n 0 6 none (np_seed 42 g) with
  | error e => rw [haux] at hgen; cases hgen
  | ok l =>
    rw [haux] at hgen
    dsimp only at hgen
    injection hgen with hgen
    injection hgen with hl hy
    subst hl
    obtain ⟨k, rfl⟩ : ∃ k, i = k + 1 := ⟨i - 1, by omega⟩
    obtain ⟨sa, sb, hstep⟩ := genAux_consec t v n 6 0 none (np_seed 42 g) l haux k h2
    rw [show 0 + (k + 1) = k + 1 from by omega] at hstep
    obtain ⟨j1, s1, j2, s2, noise, hsc, hun, hns, hblend⟩ :=
      genStep_blend t v n (k + 1) _ sa _ sb hstep
    refine ⟨sa, j1, s1, j2, s2, noise, sb, hsc, hun, hns, ?_⟩
    simpa using hblend

/-- Witness for C2 at the concrete run `n_obs = 1, trend = 0, vol = 1,
ambient state 0`, blending period 1 from period 0. -/
theorem c2_blend_formula_witness :
    generate_evolving_data 1 0 1 0 = .ok (gen_arrays 1 0 1 0, years) ∧
    1 ≤ 1 ∧ 1 < (gen_arrays 1 0 1 0).length ∧
      (∃ s j1 s1 j2 s2 noise s3,
        np_normal_scalar 0 2 s = .ok (j1, s1) ∧
        np_uniform (-2) 2 s1 = (j2, s2) ∧
        np_normal_size 0 (15 * 1 + j2) 1 s2 = .ok (noise, s3) ∧
        (gen_arrays 1 0 1 0).getD 1 [] =
          List.zipWith
            (fun p z => 7 / 10 * p + 3 / 10 * (50 + 0 * ((1 : ℕ) : ℚ) + j1) + z)
            ((gen_arrays 1 0 1 0).getD (1 - 1) []) noise) := by
  have hgen : generate_evolving_data 1 0 1 0 = .ok (gen_arrays 1 0 1 0, years) := by
    norm_num [gen_arrays, generate_evolving_data, genAux, genStep, np_normal_scalar,
      np_uniform, np_normal_size, draw_normals, rng_next, unit_interval, std_normal_val,
      np_seed]
  have hlen : 1 < (gen_arrays 1 0 1 0).length := by
    norm_num [gen_arrays, generate_evolving_data, genAux, genStep, np_normal_scalar,
      np_uniform, np_normal_size, draw_normals, rng_next, unit_interval, std_normal_val,
      np_seed]
  exact ⟨hgen, le_rfl, hlen,
    c2_blend_formula 1 0 1 0 (gen_arrays 1 0 1 0) years hgen 1 le_rfl hlen⟩
